import Mathlib

/-!
Verification of the portfolio backend (`src/index.js`).

The development shallowly embeds the parts of the program that the claims
are about:

* the `GET /portfolio` aggregation (holdings joined with per-holding quote
  lookups, partial-failure tolerant totals computed with
  `reduce((sum, s) => sum + (s.totalValue || 0), 0)`);
* the JWT middleware `verifyToken` (absent token → 403, failed
  verification — invalid or expired — → 401);
* `POST /login` token issuance (`jwt.sign({ uid }, SECRET_KEY,
  { expiresIn: "1h" })`) and the `GET /admin/user-portfolios` gate
  (`if (!req.user.admin) return 403`);
* the `PUT /portfolio/:id` and `DELETE /portfolio/:id` handlers, which act
  on the document id alone.

JavaScript numbers are modelled by `JsNum`: either `nan` (the result of
`parseFloat` on a non-numeric price field; it propagates through `*` and
`-` and is falsy) or an actual number, modelled as a rational. An absent
object field is modelled as `Option.none` at the field's type.
-/

namespace RealTimeStock

/-- A JavaScript number as the valuation code can produce it: `NaN`
(e.g. `parseFloat` applied to a missing or non-numeric `"05. price"`
field) or an actual number, modelled as a rational. -/
inductive JsNum where
  | nan : JsNum
  | num (q : ℚ) : JsNum
deriving DecidableEq, Repr

/-- JavaScript `*` on numbers: `NaN` propagates. -/
def JsNum.mul : JsNum → JsNum → JsNum
  | num a, num b => num (a * b)
  | _, _ => nan

/-- JavaScript `-` on numbers: `NaN` propagates. -/
def JsNum.sub : JsNum → JsNum → JsNum
  | num a, num b => num (a - b)
  | _, _ => nan

/-- Models `(x || 0)` applied to a possibly-absent numeric field, as in
`stocks.reduce((sum, stock) => sum + (stock.totalValue || 0), 0)`:
an absent field (`undefined`) and `NaN` are falsy and give `0`; the
number `0` is also falsy and gives `0`, which coincides with its value;
any other number is truthy and gives itself. -/
def jsOrZero : Option JsNum → ℚ
  | none => 0
  | some JsNum.nan => 0
  | some (JsNum.num q) => q

/-- A stored holding document: Firestore document id plus the fields
written by `POST /portfolio/add` (`uid`, `symbol`, `quantity`,
`purchasePrice`). -/
structure Holding where
  id : String
  uid : String
  symbol : String
  quantity : ℚ
  purchasePrice : ℚ
deriving DecidableEq, Repr

/-- How one quote lookup settles, from the handler's point of view.

* `netError` — `axios.get` rejects (network failure); control jumps to
  the `catch` branch.
* `noGlobalQuote` — the HTTP request succeeds but
  `response.data['Global Quote']` is `undefined` (unknown symbol,
  rate-limit note, malformed body), so reading `['05. price']` throws a
  `TypeError`; control jumps to the `catch` branch.
* `priceField p` — `'Global Quote'` is an object and
  `parseFloat(response.data['Global Quote']['05. price'])` evaluates to
  `p` without throwing: `JsNum.num q` when the field parses as a number,
  `JsNum.nan` when it is missing or non-numeric (`parseFloat` never
  throws). -/
inductive FetchOutcome where
  | netError : FetchOutcome
  | noGlobalQuote : FetchOutcome
  | priceField (p : JsNum) : FetchOutcome
deriving DecidableEq, Repr

/-- One element of the `stocks` array: the stored fields, the three
computed numeric fields when the `try` block completes (each `none` when
the object was built in the `catch` branch), and the `error` field set
only in the `catch` branch. -/
structure ValuedHolding where
  id : String
  uid : String
  symbol : String
  quantity : ℚ
  purchasePrice : ℚ
  currentPrice : Option JsNum
  totalValue : Option JsNum
  profitLoss : Option JsNum
  error : Option String
deriving DecidableEq, Repr

/-- The error marker the `catch` branch attaches. -/
def fetchFailedMsg : String := "Failed to fetch current price"

/-- The body of the `portfolio.docs.map(async doc => ...)` callback: on a
throwing lookup (`netError`, `noGlobalQuote`) return the stored fields
plus the error marker; otherwise compute
`currentPrice = parseFloat(...)`,
`totalValue = currentPrice * quantity`,
`profitLoss = (currentPrice - purchasePrice) * quantity`. -/
def valueHolding (h : Holding) (o : FetchOutcome) : ValuedHolding :=
  match o with
  | .priceField p =>
      { id := h.id, uid := h.uid, symbol := h.symbol
        quantity := h.quantity, purchasePrice := h.purchasePrice
        currentPrice := some p
        totalValue := some (p.mul (.num h.quantity))
        profitLoss := some ((p.sub (.num h.purchasePrice)).mul (.num h.quantity))
        error := none }
  | _ =>
      { id := h.id, uid := h.uid, symbol := h.symbol
        quantity := h.quantity, purchasePrice := h.purchasePrice
        currentPrice := none, totalValue := none, profitLoss := none
        error := some fetchFailedMsg }

/-- The response body of `GET /portfolio`. -/
structure PortfolioSummary where
  stocks : List ValuedHolding
  totalValue : ℚ
  totalProfitLoss : ℚ
deriving DecidableEq, Repr

/-- The aggregation step of the `GET /portfolio` handler, applied to the
owner's holdings each paired with the outcome its quote lookup settles
with (`Promise.all` over `map` keeps one result per document, in
document order). Totals are the two `reduce` folds over `stocks`. -/
def valuePortfolio (pairs : List (Holding × FetchOutcome)) : PortfolioSummary :=
  let stocks := pairs.map (fun p => valueHolding p.1 p.2)
  { stocks := stocks
    totalValue := stocks.foldl (fun sum s => sum + jsOrZero s.totalValue) 0
    totalProfitLoss := stocks.foldl (fun sum s => sum + jsOrZero s.profitLoss) 0 }

/-- The whole `GET /portfolio` handler: if the Firestore read
(`db.collection("portfolios").where(...).get()`) throws, the outer
`catch` answers 500 with the error message; otherwise the aggregation
runs and the summary is returned with status 200. -/
def getPortfolio (store : Except String (List (Holding × FetchOutcome))) :
    Except String PortfolioSummary :=
  match store with
  | .error e => .error e
  | .ok pairs => .ok (valuePortfolio pairs)

/-- A lookup that reaches the `catch` branch. -/
def isHardFail : FetchOutcome → Bool
  | .netError => true
  | .noGlobalQuote => true
  | .priceField _ => false

/-- A lookup whose price field parsed as an actual number. -/
def isParsedNum : FetchOutcome → Bool
  | .priceField (.num _) => true
  | _ => false

/-- Specification-side value of a successfully-quoted holding:
`currentPrice × quantity`, and nothing for a failed lookup. -/
def succTotalValue : Holding × FetchOutcome → Option ℚ
  | (h, .priceField (.num q)) => some (q * h.quantity)
  | _ => none

/-- Specification-side profit/loss of a successfully-quoted holding:
`(currentPrice − purchasePrice) × quantity`, and nothing for a failed
lookup. -/
def succProfitLoss : Holding × FetchOutcome → Option ℚ
  | (h, .priceField (.num q)) => some ((q - h.purchasePrice) * h.quantity)
  | _ => none

/-- The decoded payload of a bearer token. `POST /login` signs
`{ uid: user.uid }`; `jsonwebtoken` adds the `exp` claim from
`expiresIn: "1h"`. The `admin` field is `none` when the payload has no
such property (reading it in JavaScript yields `undefined`). -/
structure TokenClaims where
  uid : String
  admin : Option Bool
  exp : Nat
deriving DecidableEq, Repr

/-- The state of the `authorization` header as `verifyToken` sees it:
no header at all, a token `jwt.verify` rejects as invalid (bad
signature / malformed), a token `jwt.verify` rejects as expired, or a
token that verifies to a payload. -/
inductive TokenState where
  | absent : TokenState
  | invalid : TokenState
  | expired : TokenState
  | valid (claims : TokenClaims) : TokenState
deriving DecidableEq, Repr

/-- The `verifyToken` middleware: a missing header answers 403
("Token required"); any `jwt.verify` error — an invalid signature and an
expired token alike — answers 401 ("Invalid token"); otherwise
`req.user = decoded` and `next()` runs the route handler. -/
def verifyToken : TokenState → Except Nat TokenClaims
  | .absent => .error 403
  | .invalid => .error 401
  | .expired => .error 401
  | .valid c => .ok c

/-- A route wrapped in `verifyToken`: on rejection the middleware's
status is the response and the handler never runs; on success the
handler runs with the decoded claims. -/
def runProtected (handler : TokenClaims → Nat) (t : TokenState) : Nat :=
  match verifyToken t with
  | .error s => s
  | .ok c => handler c

/-- A signed bearer token: the payload plus the symmetric key it was
signed with (`jsonwebtoken` HMAC-signs with the `SECRET_KEY` string). -/
structure SignedToken where
  claims : TokenClaims
  key : String
deriving DecidableEq, Repr

/-- `jwt.sign({ uid: user.uid }, SECRET_KEY, { expiresIn: "1h" })`:
the payload carries the uid, no `admin` property, and an expiry one
hour (3600 seconds) from issuance. -/
def loginToken (uid : String) (key : String) (now : Nat) : SignedToken :=
  { claims := { uid := uid, admin := none, exp := now + 3600 }, key := key }

/-- The `POST /login` handler over a directory of registered users
(email ↦ uid): an unknown email makes `getUserByEmail` throw, answered
with 400; otherwise the handler signs and returns a token. -/
def login (users : List (String × String)) (email : String) (key : String)
    (now : Nat) : Except Nat SignedToken :=
  match users.find? (fun u => u.1 = email) with
  | none => .error 400
  | some u => .ok (loginToken u.2 key now)

/-- How `jwt.verify` settles. -/
inductive JwtError where
  | invalidSignature : JwtError
  | expired : JwtError
deriving DecidableEq, Repr

/-- `jwt.verify(token, key, ...)` with a symmetric key: verification
succeeds exactly when the token was signed with the same key and has
not expired. -/
def jwtVerify (t : SignedToken) (key : String) (now : Nat) :
    Except JwtError TokenClaims :=
  if t.key = key then
    if now < t.claims.exp then .ok t.claims else .error .expired
  else .error .invalidSignature

/-- JavaScript truthiness of the `admin` claim as
`if (!req.user.admin)` tests it: `undefined` and `false` are falsy. -/
def jsTruthy : Option Bool → Bool
  | some b => b
  | none => false

/-- The `GET /admin/user-portfolios` handler after `verifyToken`:
`if (!req.user.admin) return res.status(403)`, else 200 with every
stored holding's data. -/
def adminUserPortfolios (claims : TokenClaims) (store : List Holding) :
    Nat × Option (List Holding) :=
  if jsTruthy claims.admin then (200, some store) else (403, none)

/-- The body of a `PUT /portfolio/:id` request: each field the patch may
set (`update` merges the given fields into the document). -/
structure Patch where
  uid : Option String
  symbol : Option String
  quantity : Option ℚ
  purchasePrice : Option ℚ
deriving DecidableEq, Repr

/-- Firestore `update(req.body)` on one document: fields present in the
patch overwrite the stored ones. -/
def applyPatch (p : Patch) (h : Holding) : Holding :=
  { id := h.id
    uid := p.uid.getD h.uid
    symbol := p.symbol.getD h.symbol
    quantity := p.quantity.getD h.quantity
    purchasePrice := p.purchasePrice.getD h.purchasePrice }

/-- The `PUT /portfolio/:id` handler. The route consults only
`req.params.id`: Firestore `update` throws on a missing document
(caught, 500) and otherwise merges the patch; the authenticated user
`user` (`req.user.uid`) is never read. Returns the response status and
the store afterwards. -/
def putHandler (store : List Holding) (user : String) (docId : String)
    (p : Patch) : Nat × List Holding :=
  if store.any (fun h => h.id = docId) then
    (200, store.map (fun h => if h.id = docId then applyPatch p h else h))
  else
    (500, store)

/-- The `DELETE /portfolio/:id` handler. Firestore `delete()` succeeds
whether or not the document exists; only `req.params.id` is consulted,
never the authenticated user. -/
def deleteHandler (store : List Holding) (user : String) (docId : String) :
    Nat × List Holding :=
  (200, store.filter (fun h => h.id ≠ docId))

/-! ### Helper lemmas about the totals folds -/

lemma foldl_add_eq_sum_map {α : Type} (f : α → ℚ) (l : List α) (a : ℚ) :
    l.foldl (fun sum x => sum + f x) a = a + (l.map f).sum := by
  induction l generalizing a with
  | nil => simp
  | cons x xs ih => simp [List.foldl_cons, ih, add_assoc]

lemma totalValue_eq_sum_map (pairs : List (Holding × FetchOutcome)) :
    (valuePortfolio pairs).totalValue =
      (pairs.map (fun p => jsOrZero (valueHolding p.1 p.2).totalValue)).sum := by
  simp [valuePortfolio, foldl_add_eq_sum_map, List.map_map, Function.comp_def]

lemma totalProfitLoss_eq_sum_map (pairs : List (Holding × FetchOutcome)) :
    (valuePortfolio pairs).totalProfitLoss =
      (pairs.map (fun p => jsOrZero (valueHolding p.1 p.2).profitLoss)).sum := by
  simp [valuePortfolio, foldl_add_eq_sum_map, List.map_map, Function.comp_def]

lemma jsOrZero_totalValue_eq (p : Holding × FetchOutcome) :
    jsOrZero (valueHolding p.1 p.2).totalValue = (succTotalValue p).getD 0 := by
  obtain ⟨h, o⟩ := p
  cases o with
  | netError => rfl
  | noGlobalQuote => rfl
  | priceField q => cases q <;> rfl

lemma jsOrZero_profitLoss_eq (p : Holding × FetchOutcome) :
    jsOrZero (valueHolding p.1 p.2).profitLoss = (succProfitLoss p).getD 0 := by
  obtain ⟨h, o⟩ := p
  cases o with
  | netError => rfl
  | noGlobalQuote => rfl
  | priceField q => cases q <;> rfl

lemma sum_map_getD_eq_sum_filterMap {α : Type} (f : α → Option ℚ) (l : List α) :
    (l.map (fun x => (f x).getD 0)).sum = (l.filterMap f).sum := by
  induction l with
  | nil => rfl
  | cons x xs ih =>
    cases hx : f x <;> simp [List.filterMap_cons, hx, ih]

lemma take_map_append {α β : Type} (f : α → β) (l1 l2 : List α) (x : α) :
    ((l1 ++ x :: l2).map f).take l1.length = l1.map f := by
  induction l1 with
  | nil => simp
  | cons a as ih => simp [ih]

lemma drop_map_append {α β : Type} (f : α → β) (l1 l2 : List α) (x : α) :
    ((l1 ++ x :: l2).map f).drop (l1.length + 1) = l2.map f := by
  induction l1 with
  | nil => simp
  | cons a as ih => simpa using ih

/-- Concrete example data: one holding that quotes successfully at 7 and
one whose lookup fails on the network. -/
def exPairs : List (Holding × FetchOutcome) :=
  [({ id := "d1", uid := "u1", symbol := "AAA", quantity := 10, purchasePrice := 5 },
    .priceField (.num 7)),
   ({ id := "d2", uid := "u1", symbol := "BAD", quantity := 1, purchasePrice := 1 },
    .netError)]

/-- Concrete example data: a holding owned by `alice`. -/
def sampleHolding : Holding :=
  { id := "d9", uid := "alice", symbol := "AAA", quantity := 1, purchasePrice := 1 }

/-- Concrete example data: a patch that changes nothing. -/
def emptyPatch : Patch :=
  { uid := none, symbol := none, quantity := none, purchasePrice := none }

/-! ### The claims -/

/-- C1: when some quote lookups fail (reach the `catch` branch) and the
rest succeed with a numeric price, `totalValue` and `totalProfitLoss`
are the sums of per-holding `totalValue` and `profitLoss` over the
successfully-quoted holdings only, and every failed holding appears in
`stocks` with the failure marker and no `currentPrice`, `totalValue` or
`profitLoss` field. -/
theorem c1_partial_failure_totals (pairs : List (Holding × FetchOutcome))
    (hout : ∀ p ∈ pairs, isHardFail p.2 = true ∨ isParsedNum p.2 = true) :
    (valuePortfolio pairs).totalValue = (pairs.filterMap succTotalValue).sum ∧
    (valuePortfolio pairs).totalProfitLoss = (pairs.filterMap succProfitLoss).sum ∧
    ∀ p ∈ pairs, isHardFail p.2 = true →
      valueHolding p.1 p.2 ∈ (valuePortfolio pairs).stocks ∧
      (valueHolding p.1 p.2).error = some fetchFailedMsg ∧
      (valueHolding p.1 p.2).currentPrice = none ∧
      (valueHolding p.1 p.2).totalValue = none ∧
      (valueHolding p.1 p.2).profitLoss = none := by
  refine ⟨?_, ?_, ?_⟩
  · rw [totalValue_eq_sum_map]
    simp only [jsOrZero_totalValue_eq]
    exact sum_map_getD_eq_sum_filterMap succTotalValue pairs
  · rw [totalProfitLoss_eq_sum_map]
    simp only [jsOrZero_profitLoss_eq]
    exact sum_map_getD_eq_sum_filterMap succProfitLoss pairs
  · intro p hp hfail
    refine ⟨?_, ?_⟩
    · exact List.mem_map_of_mem (fun p => valueHolding p.1 p.2) hp
    · obtain ⟨h, o⟩ := p
      cases o with
      | netError => exact ⟨rfl, rfl, rfl, rfl⟩
      | noGlobalQuote => exact ⟨rfl, rfl, rfl, rfl⟩
      | priceField q => simp [isHardFail] at hfail

/-- C1 witness: on `exPairs` (one success at price 7, quantity 10,
purchase price 5; one network failure) the totals are 70 and 20 and the
failed holding is emitted with the marker and no numeric fields. -/
theorem c1_partial_failure_totals_witness :
    (∀ p ∈ exPairs, isHardFail p.2 = true ∨ isParsedNum p.2 = true) ∧
    (valuePortfolio exPairs).totalValue = 70 ∧
    (valuePortfolio exPairs).totalProfitLoss = 20 ∧
    ∀ p ∈ exPairs, isHardFail p.2 = true →
      valueHolding p.1 p.2 ∈ (valuePortfolio exPairs).stocks ∧
      (valueHolding p.1 p.2).error = some fetchFailedMsg ∧
      (valueHolding p.1 p.2).currentPrice = none ∧
      (valueHolding p.1 p.2).totalValue = none ∧
      (valueHolding p.1 p.2).profitLoss = none :=
  ⟨by decide,
   ((c1_partial_failure_totals exPairs (by decide)).1).trans (by norm_num [exPairs, succTotalValue, List.filterMap_cons]),
   ((c1_partial_failure_totals exPairs (by decide)).2.1).trans (by norm_num [exPairs, succProfitLoss, List.filterMap_cons]),
   (c1_partial_failure_totals exPairs (by decide)).2.2⟩

/-- C2: one lookup's failure never aborts the aggregation or changes any
sibling holding's entry — replacing the outcome at one position leaves
every other position of `stocks` unchanged — and the overall operation
returns an error exactly when the Holdings Store read itself fails,
never because of individual quote-lookup failures. -/
theorem c2_lookup_isolation (st : Except String (List (Holding × FetchOutcome)))
    (l1 l2 : List (Holding × FetchOutcome)) (h : Holding) (o o2 : FetchOutcome) :
    ((∃ e, getPortfolio st = Except.error e) ↔ ∃ e, st = Except.error e) ∧
    (valuePortfolio (l1 ++ (h, o) :: l2)).stocks.take l1.length
      = (valuePortfolio (l1 ++ (h, o2) :: l2)).stocks.take l1.length ∧
    (valuePortfolio (l1 ++ (h, o) :: l2)).stocks.drop (l1.length + 1)
      = (valuePortfolio (l1 ++ (h, o2) :: l2)).stocks.drop (l1.length + 1) := by
  refine ⟨?_, ?_, ?_⟩
  · cases st <;> simp [getPortfolio]
  · show ((l1 ++ (h, o) :: l2).map _).take l1.length
      = ((l1 ++ (h, o2) :: l2).map _).take l1.length
    rw [take_map_append, take_map_append]
  · show ((l1 ++ (h, o) :: l2).map _).drop (l1.length + 1)
      = ((l1 ++ (h, o2) :: l2).map _).drop (l1.length + 1)
    rw [drop_map_append, drop_map_append]

/-- C3: when every lookup succeeds with a numeric price, `totalValue` is
the sum of `currentPrice × quantity`, `totalProfitLoss` is the sum of
`(currentPrice − purchasePrice) × quantity`, and each entry of `stocks`
carries exactly those per-holding values. -/
theorem c3_all_success_totals (hq : List (Holding × ℚ)) :
    (valuePortfolio (hq.map (fun p => (p.1, FetchOutcome.priceField (JsNum.num p.2))))).totalValue
      = (hq.map (fun p => p.2 * p.1.quantity)).sum ∧
    (valuePortfolio (hq.map (fun p => (p.1, FetchOutcome.priceField (JsNum.num p.2))))).totalProfitLoss
      = (hq.map (fun p => (p.2 - p.1.purchasePrice) * p.1.quantity)).sum ∧
    (valuePortfolio (hq.map (fun p => (p.1, FetchOutcome.priceField (JsNum.num p.2))))).stocks
      = hq.map (fun p =>
          { id := p.1.id, uid := p.1.uid, symbol := p.1.symbol
            quantity := p.1.quantity, purchasePrice := p.1.purchasePrice
            currentPrice := some (JsNum.num p.2)
            totalValue := some (JsNum.num (p.2 * p.1.quantity))
            profitLoss := some (JsNum.num ((p.2 - p.1.purchasePrice) * p.1.quantity))
            error := none }) := by
  refine ⟨?_, ?_, ?_⟩
  · rw [totalValue_eq_sum_map, List.map_map]
    rfl
  · rw [totalProfitLoss_eq_sum_map, List.map_map]
    rfl
  · show (hq.map _).map _ = _
    rw [List.map_map]
    rfl

/-- C4: the aggregation is count-preserving: for every holding set
(paired with arbitrary lookup outcomes), `stocks` is exactly the
one-entry-per-holding image of the input, so it has exactly N entries,
with no drops and no duplicates, for every N including 0. -/
theorem c4_count_preservation (pairs : List (Holding × FetchOutcome)) :
    (valuePortfolio pairs).stocks.length = pairs.length ∧
    (valuePortfolio pairs).stocks = pairs.map (fun p => valueHolding p.1 p.2) :=
  ⟨List.length_map pairs (fun p => valueHolding p.1 p.2), rfl⟩

/-- C6: an empty holding set is not an error: the handler answers with
the summary of empty stocks and zero totals. -/
theorem c6_empty_portfolio :
    getPortfolio (.ok []) =
      .ok { stocks := [], totalValue := 0, totalProfitLoss := 0 } := rfl

/-- C9: `stocks` preserves the input order positionally: its i-th entry
is the valuation of the i-th holding read from the store, for every
index and every pattern of lookup outcomes. -/
theorem c9_order_preserved (pairs : List (Holding × FetchOutcome)) (i : Nat) :
    (valuePortfolio pairs).stocks[i]? =
      (pairs[i]?).map (fun p => valueHolding p.1 p.2) := by
  simp [valuePortfolio]

/-- C5 counterexample: a lookup whose request succeeds but whose price
field fails to parse (`parseFloat` gives `NaN`) is NOT emitted like a
network failure: the entry carries no failure marker and its
`currentPrice`, `totalValue` and `profitLoss` fields are present
(holding `NaN`), contradicting the claim. -/
theorem c5_nan_counterexample :
    (valueHolding
        { id := "d1", uid := "u1", symbol := "AAA", quantity := 1, purchasePrice := 1 }
        (.priceField .nan)).error = none ∧
    (valueHolding
        { id := "d1", uid := "u1", symbol := "AAA", quantity := 1, purchasePrice := 1 }
        (.priceField .nan)).currentPrice = some JsNum.nan ∧
    (valueHolding
        { id := "d1", uid := "u1", symbol := "AAA", quantity := 1, purchasePrice := 1 }
        (.priceField .nan)).totalValue = some JsNum.nan ∧
    (valueHolding
        { id := "d1", uid := "u1", symbol := "AAA", quantity := 1, purchasePrice := 1 }
        (.priceField .nan)).profitLoss = some JsNum.nan :=
  ⟨rfl, rfl, rfl, rfl⟩

/-- C5 (amended): when the provider price field fails numeric parse the
aggregator fails soft (no exception is thrown — `parseFloat` yields
`NaN`), but the holding is NOT marked as a lookup failure: it is emitted
without the error marker and with `currentPrice`, `totalValue` and
`profitLoss` all present and equal to `NaN`; such an entry contributes 0
to both totals (`NaN` is falsy in the `reduce`), so only the totals
behave as for a failed lookup. -/
theorem c5_nan_amended (h : Holding) :
    valueHolding h (.priceField .nan) =
      { id := h.id, uid := h.uid, symbol := h.symbol, quantity := h.quantity
        purchasePrice := h.purchasePrice, currentPrice := some .nan
        totalValue := some .nan, profitLoss := some .nan, error := none } ∧
    jsOrZero (valueHolding h (.priceField .nan)).totalValue = 0 ∧
    jsOrZero (valueHolding h (.priceField .nan)).profitLoss = 0 :=
  ⟨rfl, rfl, rfl⟩

/-- C7 counterexample: an invalid credential and an expired credential
are rejected with the SAME status — `jwt.verify` reports both as an
error and the middleware answers 401 either way — so the three rejection
cases are not pairwise distinct as the claim states. -/
theorem c7_status_counterexample :
    verifyToken TokenState.invalid = verifyToken TokenState.expired ∧
    verifyToken TokenState.invalid = Except.error 401 ∧
    verifyToken TokenState.expired = Except.error 401 :=
  ⟨rfl, rfl, rfl⟩

/-- C7 (amended): the gate rejects an absent credential with 403 and an
invalid or an expired credential both with 401 — absent is distinct from
the other two, but invalid and expired share a status — and on every
rejection the protected handler is never invoked (the response is the
middleware's status, whatever the handler would do). -/
theorem c7_status_amended :
    verifyToken TokenState.absent = Except.error 403 ∧
    verifyToken TokenState.invalid = Except.error 401 ∧
    verifyToken TokenState.expired = Except.error 401 ∧
    verifyToken TokenState.absent ≠ verifyToken TokenState.invalid ∧
    ∀ (h1 h2 : TokenClaims → Nat) (t : TokenState) (s : Nat),
      verifyToken t = Except.error s →
        runProtected h1 t = s ∧ runProtected h1 t = runProtected h2 t := by
  refine ⟨rfl, rfl, rfl, ?_, ?_⟩
  · intro hc
    exact absurd (Except.error.inj hc) (by decide)
  · intro h1 h2 t s hrej
    constructor <;> simp [runProtected, hrej]

/-- C7 witness: with an expired token the route answers 401 and two
different handlers are indistinguishable (neither runs). -/
theorem c7_status_amended_witness :
    runProtected (fun _ => 200) TokenState.expired = 401 ∧
    runProtected (fun _ => 200) TokenState.expired
      = runProtected (fun _ => 0) TokenState.expired :=
  c7_status_amended.2.2.2.2 (fun _ => 200) (fun _ => 0) TokenState.expired 401 rfl

/-- C8 counterexample: a token issued by `POST /login` carries no admin
flag at all in its claims (the payload is `{ uid }` only), so the claim
that every issued token carries an admin flag is false; consequently the
admin endpoint answers 403 on such a token. -/
theorem c8_admin_flag_counterexample :
    (loginToken "user1" "secret" 0).claims.admin = none ∧
    adminUserPortfolios (loginToken "user1" "secret" 0).claims [] = (403, none) :=
  ⟨rfl, rfl⟩

/-- C8 (amended): every token issued by `POST /login` is signed with the
symmetric secret (verification succeeds exactly with the same key) and
has a one-hour lifetime, and its claims carry the owner identity but NO
admin flag; the admin endpoint decides access by reading the admin flag
from the verified token, so every login-issued token is refused with 403
while a token whose claims carry a truthy admin flag is admitted. -/
theorem c8_login_token_amended (uid key : String) (now t : Nat)
    (store : List Holding) :
    (loginToken uid key now).claims.uid = uid ∧
    (loginToken uid key now).claims.exp = now + 3600 ∧
    (loginToken uid key now).claims.admin = none ∧
    (t < now + 3600 →
      jwtVerify (loginToken uid key now) key t
        = Except.ok (loginToken uid key now).claims) ∧
    (∀ key2, key2 ≠ key →
      jwtVerify (loginToken uid key now) key2 t
        = Except.error JwtError.invalidSignature) ∧
    adminUserPortfolios (loginToken uid key now).claims store = (403, none) ∧
    ∀ (c : TokenClaims), jsTruthy c.admin = true →
      adminUserPortfolios c store = (200, some store) := by
  refine ⟨rfl, rfl, rfl, ?_, ?_, rfl, ?_⟩
  · intro ht
    simp [jwtVerify, loginToken, ht]
  · intro key2 hk2
    simp [jwtVerify, loginToken, Ne.symm hk2]
  · intro c hc
    simp [adminUserPortfolios, hc]

/-- C8 witness: a concrete login token verifies under the signing key
before expiry, fails under a different key, and is refused by the admin
endpoint; a token with a truthy admin claim is admitted. -/
theorem c8_login_token_amended_witness :
    jwtVerify (loginToken "u" "k" 0) "k" 1
      = Except.ok (loginToken "u" "k" 0).claims ∧
    jwtVerify (loginToken "u" "k" 0) "x" 1
      = Except.error JwtError.invalidSignature ∧
    adminUserPortfolios (loginToken "u" "k" 0).claims [] = (403, none) ∧
    adminUserPortfolios { uid := "u", admin := some true, exp := 3600 } []
      = (200, some []) :=
  ⟨(c8_login_token_amended "u" "k" 0 1 []).2.2.2.1 (by decide),
   (c8_login_token_amended "u" "k" 0 1 []).2.2.2.2.1 "x" (by decide),
   (c8_login_token_amended "u" "k" 0 1 []).2.2.2.2.2.1,
   (c8_login_token_amended "u" "k" 0 1 []).2.2.2.2.2.2
     { uid := "u", admin := some true, exp := 3600 } rfl⟩

/-- C10: neither `PUT /portfolio/:id` nor `DELETE /portfolio/:id`
consults the authenticated identity: the response and resulting store
are identical for any two authenticated users, and a user can delete a
holding stored under another owner's uid (the delete answers 200 and the
holding is gone). -/
theorem c10_no_ownership_check (store : List Holding) (u1 u2 docId : String)
    (p : Patch) (h : Holding) (hmem : h ∈ store) (hid : h.id = docId)
    (hown : h.uid ≠ u1) :
    putHandler store u1 docId p = putHandler store u2 docId p ∧
    deleteHandler store u1 docId = deleteHandler store u2 docId ∧
    (deleteHandler store u1 docId).1 = 200 ∧
    h ∉ (deleteHandler store u1 docId).2 := by
  refine ⟨rfl, rfl, rfl, ?_⟩
  intro hc
  simp [deleteHandler, List.mem_filter, hid] at hc

/-- C10 witness: `mallory` deletes `alice`'s holding `d9`: the outcome is
the same as if `alice` had issued the request, the status is 200, and
the holding is removed. -/
theorem c10_no_ownership_check_witness :
    putHandler [sampleHolding] "mallory" "d9" emptyPatch
      = putHandler [sampleHolding] "alice" "d9" emptyPatch ∧
    deleteHandler [sampleHolding] "mallory" "d9"
      = deleteHandler [sampleHolding] "alice" "d9" ∧
    (deleteHandler [sampleHolding] "mallory" "d9").1 = 200 ∧
    sampleHolding ∉ (deleteHandler [sampleHolding] "mallory" "d9").2 :=
  c10_no_ownership_check [sampleHolding] "mallory" "alice" "d9" emptyPatch
    sampleHolding (by decide) rfl (by decide)

end RealTimeStock
